import Mathlib

/-!
Verification development for the hume-narrator plugin
(src/main.ts, src/AgentModal.ts, src/HumeService.ts, src/types.ts).

The plugin code is event-driven UI glue around a vendor SDK.  We embed it
shallowly: each method becomes a pure Lean function from an explicit state
(the class fields that the method reads and writes) and an explicit
environment (the outcomes of the external await points: microphone grant,
socket open, TTS network response, audio-playback settlement) to the updated
state together with a trace of observable effects (user notices, console
logs, network requests, handle releases).  Thrown JS exceptions become
`Except.error` results.  The order of effects in a trace mirrors the order
of the corresponding statements in the source.
-/

/-- Observable effects performed by the plugin code, in source order. -/
inductive Effect where
  | notice (msg : String)
  | consoleError (msg : String)
  | consoleLog (msg : String)
  | requestMicrophone
  | connectSocket
  | synthesizeRequest (text : String) (description : Option String)
  | recorderStart (timesliceMs : Nat)
  | recorderStop
  | trackStop (id : Nat)
  | socketClose
  | createObjectURL (url : String)
  | revokeObjectURL (url : String)
  | playStart (url : String)
  | pauseAudio (url : String)
  | openModal
  deriving DecidableEq, Repr

/-- State of a MediaRecorder handle (`MediaRecorder.state` in the DOM API). -/
inductive RecorderState where
  | inactive
  | recording
  | paused
  deriving DecidableEq, Repr

/-- A MediaRecorder handle: only its `state` field is read by the code. -/
structure MediaRecorder where
  state : RecorderState
  deriving DecidableEq, Repr

/-- A microphone MediaStream, represented by the ids of its tracks
(`getTracks()` in AgentModal.stopListening iterates over them). -/
abbrev MediaStream := List Nat

/-- Fields of the AgentModal class (src/AgentModal.ts lines 10-20) that the
embedded methods read or write.  The UI elements are modelled by the text
they currently display; `none` models a null element reference.
`humeApiKey` is the single field of the settings record the modal holds
(src/types.ts). -/
structure ModalState where
  humeApiKey : String
  mediaStream : Option MediaStream
  socket : Option Unit
  isListening : Bool
  mediaRecorder : Option MediaRecorder
  statusEl : Option String
  transcriptionEl : Option String
  responseEl : Option String
  startButton : Option String
  deriving DecidableEq, Repr

/-- AgentModal.updateStatus (src/AgentModal.ts lines 330-334): sets the
status element text when the element exists. -/
def updateStatus (s : ModalState) (status : String) : ModalState :=
  { s with statusEl := s.statusEl.map fun _ => status }

/-- AgentModal.stopListening (src/AgentModal.ts lines 137-163): stops the
recorder when present and not inactive, stops every media-stream track,
closes the socket, nulls all three handles, clears the listening flag,
sets the status text and resets the button label. -/
def stopListening (s : ModalState) : ModalState × List Effect :=
  let recEffs : List Effect :=
    match s.mediaRecorder with
    | some r => if r.state = RecorderState.inactive then [] else [Effect.recorderStop]
    | none => []
  let streamEffs : List Effect :=
    match s.mediaStream with
    | some tracks => tracks.map Effect.trackStop
    | none => []
  let sockEffs : List Effect :=
    match s.socket with
    | some _ => [Effect.socketClose]
    | none => []
  ({ s with mediaRecorder := none, mediaStream := none, socket := none,
            isListening := false,
            statusEl := s.statusEl.map fun _ => "Stopped",
            startButton := s.startButton.map fun _ => "Start Listening" },
   recEffs ++ streamEffs ++ sockEffs)

/-- Outcomes of the two await points of AgentModal.startListening: the
microphone permission request (`getUserMedia`) and the socket open wait
(`waitForOpen`).  An `Except.error` models the corresponding promise
rejecting with the given error message. -/
structure StartEnv where
  micResult : Except String MediaStream
  socketOpenResult : Except String Unit
  deriving Repr

/-- The catch block of AgentModal.startListening (src/AgentModal.ts lines
125-131): logs the error, shows a failure notice, writes an error status and
then performs a full stopListening.  `prior` is the trace accumulated in the
try block before the throw. -/
def startCatch (s : ModalState) (msg : String) (prior : List Effect) :
    ModalState × List Effect :=
  let s1 := updateStatus s ("Error: " ++ msg)
  let (s2, stopEffs) := stopListening s1
  (s2, prior ++ [Effect.consoleError ("Error starting voice session: " ++ msg),
                 Effect.notice ("Failed to start voice session: " ++ msg)] ++ stopEffs)

/-- AgentModal.startAudioStreaming (src/AgentModal.ts lines 238-275):
returns immediately when the stream or socket is absent; otherwise creates a
MediaRecorder on the stream and starts it with a 250 ms timeslice.  The
per-chunk `ondataavailable` callback is not part of any claim and is not
modelled beyond the recorder creation. -/
def startAudioStreaming (s : ModalState) : ModalState × List Effect :=
  match s.mediaStream, s.socket with
  | some _, some _ =>
      ({ s with mediaRecorder := some ⟨RecorderState.recording⟩ },
       [Effect.recorderStart 250])
  | _, _ => (s, [])

/-- AgentModal.startListening (src/AgentModal.ts lines 78-132): aborts with
a notice when the API key is empty (JS `!this.settings.humeApiKey` is true
exactly for the empty string); otherwise requests the microphone, connects
the EVI socket, starts audio streaming and flips the listening flag, with
any rejection routed through the catch block. -/
def startListening (s : ModalState) (env : StartEnv) : ModalState × List Effect :=
  if s.humeApiKey = "" then
    (s, [Effect.notice "Please configure your Hume API key in settings."])
  else
    let s1 := updateStatus s "Requesting microphone access..."
    match env.micResult with
    | Except.error msg => startCatch s1 msg [Effect.requestMicrophone]
    | Except.ok tracks =>
      let s2 := updateStatus { s1 with mediaStream := some tracks } "Connecting to Hume EVI..."
      let s3 := { s2 with socket := some () }
      match env.socketOpenResult with
      | Except.error msg =>
          startCatch s3 msg [Effect.requestMicrophone, Effect.connectSocket]
      | Except.ok _ =>
          let (s4, streamEffs) := startAudioStreaming s3
          let s5 := updateStatus { s4 with isListening := true } "Listening..."
          let s6 := { s5 with startButton := s5.startButton.map fun _ => "Stop Listening" }
          (s6, [Effect.requestMicrophone, Effect.connectSocket] ++ streamEffs)

/-- AgentModal.toggleListening (src/AgentModal.ts lines 67-73). -/
def toggleListening (s : ModalState) (env : StartEnv) : ModalState × List Effect :=
  if s.isListening then stopListening s else startListening s env

/-- HumeService.hasCredentials (src/HumeService.ts lines 145-147):
`Boolean(key)` on a string is false exactly for the empty string. -/
def hasCredentials (humeApiKey : String) : Bool := humeApiKey ≠ ""

/-- The guard shared by the ribbon icon and the Open Voice Brainstorm
command (src/main.ts lines 30-36 and 70-76): without credentials it shows a
configure notice and opens nothing; otherwise it opens the AgentModal.
The returned Bool records whether the modal was opened. -/
def openVoiceBrainstorm (humeApiKey : String) : Bool × List Effect :=
  if hasCredentials humeApiKey then (true, [Effect.openModal])
  else (false, [Effect.notice "Please configure your Hume API credentials in settings."])

/-- Outcome of the base64 decode (`atob`, which throws on malformed input)
inside AgentModal.playAudioResponse. -/
inductive DecodeResult where
  | ok
  | failure (msg : String)
  deriving DecidableEq, Repr

/-- Outcome of the `audio.play()` call inside AgentModal.playAudioResponse:
the returned promise either starts playback or rejects. -/
inductive PlayResult where
  | started
  | rejected (msg : String)
  deriving DecidableEq, Repr

/-- Environment for AgentModal.playAudioResponse. -/
structure PlayAudioEnv where
  decode : DecodeResult
  play : PlayResult
  deriving DecidableEq, Repr

/-- Models `URL.createObjectURL` deterministically: the identity of the URL
is observable only through the matching play and revoke effects. -/
def mkObjectURL (data : String) : String := "blob:" ++ data

/-- AgentModal.playAudioResponse (src/AgentModal.ts lines 301-325): decodes
the base64 payload (a decode throw is caught and only logged), creates an
object URL and plays it; a play rejection is caught and only logged.  No
class field is written. -/
def playAudioResponse (s : ModalState) (base64Audio : String) (env : PlayAudioEnv) :
    ModalState × List Effect :=
  match env.decode with
  | DecodeResult.failure msg =>
      (s, [Effect.consoleError ("Error playing audio response: " ++ msg)])
  | DecodeResult.ok =>
      let url := mkObjectURL base64Audio
      match env.play with
      | PlayResult.started =>
          (s, [Effect.createObjectURL url, Effect.playStart url])
      | PlayResult.rejected msg =>
          (s, [Effect.createObjectURL url, Effect.playStart url,
               Effect.consoleError ("Error playing audio: " ++ msg)])

/-- The inbound EVI socket events consumed by AgentModal.handleSocketMessage.
Optional payload fields are modelled with Option; a JS `undefined` field is
`none`. -/
inductive SubscribeEvent where
  | userMessage (content : Option String)
  | assistantMessage (content : Option String)
  | audioOutput (data : Option String)
  | userInterruption
  | errorEvent (info : String)
  deriving DecidableEq, Repr

/-- AgentModal.handleSocketMessage (src/AgentModal.ts lines 197-233).  The
truthiness tests `if (message.message?.content)` and `if (message.data)` are
false for both a missing field and the empty string.  `audioEnv` supplies
the playback outcomes for the audio-output branch. -/
def handleSocketMessage (s : ModalState) (m : SubscribeEvent) (audioEnv : PlayAudioEnv) :
    ModalState × List Effect :=
  match m with
  | SubscribeEvent.userMessage c =>
      match c with
      | some str =>
          if str = "" then (s, [])
          else ({ s with transcriptionEl := s.transcriptionEl.map fun _ => str }, [])
      | none => (s, [])
  | SubscribeEvent.assistantMessage c =>
      match c with
      | some str =>
          if str = "" then (s, [])
          else ({ s with responseEl := s.responseEl.map fun _ => str }, [])
      | none => (s, [])
  | SubscribeEvent.audioOutput d =>
      match d with
      | some str => if str = "" then (s, []) else playAudioResponse s str audioEnv
      | none => (s, [])
  | SubscribeEvent.userInterruption =>
      (updateStatus s "Interrupted - listening...", [])
  | SubscribeEvent.errorEvent info =>
      (s, [Effect.consoleError ("EVI error: " ++ info), Effect.notice "EVI error occurred"])

/-- The socket `open` handler registered by AgentModal.setupSocketHandlers
(src/AgentModal.ts lines 171-174). -/
def onSocketOpen (s : ModalState) : ModalState × List Effect :=
  (updateStatus s "Connected to EVI", [Effect.consoleLog "EVI WebSocket connected"])

/-- The socket `error` handler registered by AgentModal.setupSocketHandlers
(src/AgentModal.ts lines 180-184): it logs, shows a notice and updates the
status text; it does not touch the handles or the listening flag. -/
def onSocketError (s : ModalState) (err : String) : ModalState × List Effect :=
  (updateStatus s "Connection error",
   [Effect.consoleError ("EVI WebSocket error: " ++ err),
    Effect.notice "Connection error occurred"])

/-- The socket `close` handler registered by AgentModal.setupSocketHandlers
(src/AgentModal.ts lines 186-191): logs, and performs a full stopListening
exactly when the modal is still listening. -/
def onSocketClose (s : ModalState) : ModalState × List Effect :=
  if s.isListening then
    ((stopListening s).1, Effect.consoleLog "EVI WebSocket closed" :: (stopListening s).2)
  else
    (s, [Effect.consoleLog "EVI WebSocket closed"])

/-- Fields of the HumeService class (src/HumeService.ts lines 10-13).  The
lazily created vendor client is modelled by a Bool; the currently playing
audio element is identified by the object URL it plays. -/
structure ServiceState where
  humeApiKey : String
  clientInitialized : Bool
  currentAudio : Option String
  deriving DecidableEq, Repr

/-- One synthesized result of a TTS response; `audio` is its optional
base64 payload (`undefined` becomes `none`). -/
structure Generation where
  audio : Option String
  deriving DecidableEq, Repr

/-- A TTS response: `generations` is `none` when the field is absent in the
JSON (`!response.generations` in the source also covers this case). -/
structure TTSResponse where
  generations : Option (List Generation)
  deriving DecidableEq, Repr

/-- Settlement of the HTML5 audio element created by HumeService.playAudio:
it either fires `onended`, fires `onerror`, or its `play()` promise
rejects. -/
inductive PlayOutcome where
  | ended
  | errored
  | playRejected (msg : String)
  deriving DecidableEq, Repr

/-- Outcomes of the external await points of HumeService.streamTextToSpeech:
the synthesis network call and the playback settlement. -/
structure TTSEnv where
  response : Except String TTSResponse
  playOutcome : PlayOutcome
  deriving Repr

/-- Models JS String.prototype.trim: drops leading and trailing whitespace
characters. -/
def jsTrim (s : String) : String :=
  ⟨((s.data.dropWhile Char.isWhitespace).reverse.dropWhile Char.isWhitespace).reverse⟩

/-- HumeService.stopCurrentAudio (src/HumeService.ts lines 134-140): pauses
and drops the current audio element when one exists, otherwise does
nothing. -/
def stopCurrentAudio (s : ServiceState) : ServiceState × List Effect :=
  match s.currentAudio with
  | some url => ({ s with currentAudio := none }, [Effect.pauseAudio url])
  | none => (s, [])

/-- HumeService.playAudio (src/HumeService.ts lines 106-129): stores the new
element in `currentAudio`, starts playback, and on every settlement revokes
the object URL and nulls `currentAudio`; `onerror` rejects with a fixed
message, a `play()` rejection propagates the underlying error. -/
def playAudio (s : ServiceState) (audioUrl : String) (outcome : PlayOutcome) :
    Except String Unit × ServiceState × List Effect :=
  let s1 : ServiceState := { s with currentAudio := some audioUrl }
  match outcome with
  | PlayOutcome.ended =>
      (Except.ok (), { s1 with currentAudio := none },
       [Effect.playStart audioUrl, Effect.revokeObjectURL audioUrl])
  | PlayOutcome.errored =>
      (Except.error "Failed to play audio", { s1 with currentAudio := none },
       [Effect.playStart audioUrl, Effect.revokeObjectURL audioUrl])
  | PlayOutcome.playRejected msg =>
      (Except.error msg, { s1 with currentAudio := none },
       [Effect.playStart audioUrl, Effect.revokeObjectURL audioUrl])

/-- The catch block of HumeService.streamTextToSpeech (src/HumeService.ts
lines 94-99): logs the error, shows an error notice, and rethrows the same
error.  `prior` is the trace accumulated in the try block. -/
def ttsCatch (s : ServiceState) (msg : String) (prior : List Effect) :
    Except String Unit × ServiceState × List Effect :=
  (Except.error msg, s,
   prior ++ [Effect.consoleError ("Hume TTS Error: " ++ msg),
             Effect.notice ("Error: " ++ msg)])

/-- HumeService.streamTextToSpeech (src/HumeService.ts lines 51-100).  The
blank-input throw is outside the try block, so it produces no log and no
notice of its own.  Inside the try: getClient throws when the key is empty;
otherwise any current playback is stopped, a progress notice is shown, the
synthesis request is sent, the response is checked for a first generation
with a truthy audio payload (the empty string is falsy in JS), the audio is
decoded into an object URL and played to settlement.  Every throw inside
the try is routed through the catch block and rethrown. -/
def streamTextToSpeech (s : ServiceState) (text : String) (description : Option String)
    (env : TTSEnv) : Except String Unit × ServiceState × List Effect :=
  if text = "" ∨ jsTrim text = "" then
    (Except.error "Text cannot be empty", s, [])
  else if s.humeApiKey = "" then
    ttsCatch s "Hume API key is not configured. Please set it in the plugin settings." []
  else
    let s1 : ServiceState := { s with clientInitialized := true }
    let (s2, stopEffs) := stopCurrentAudio s1
    let prior := stopEffs ++ [Effect.notice "Synthesizing speech...",
                              Effect.synthesizeRequest text description]
    match env.response with
    | Except.error msg => ttsCatch s2 msg prior
    | Except.ok resp =>
      match resp.generations with
      | none => ttsCatch s2 "No audio was generated" prior
      | some [] => ttsCatch s2 "No audio was generated" prior
      | some (g :: _) =>
        match g.audio with
        | none => ttsCatch s2 "No audio data in response" prior
        | some a =>
          if a = "" then ttsCatch s2 "No audio data in response" prior
          else
            let url := mkObjectURL a
            let prior2 := prior ++ [Effect.createObjectURL url]
            let (r, s3, playEffs) := playAudio s2 url env.playOutcome
            match r with
            | Except.ok _ => (Except.ok (), s3, prior2 ++ playEffs)
            | Except.error msg => ttsCatch s3 msg (prior2 ++ playEffs)

/-- True when the trace contains a user-visible notice. -/
def containsNotice (effs : List Effect) : Bool :=
  effs.any fun e =>
    match e with
    | Effect.notice _ => true
    | _ => false

/-- True when the trace contains a console error log. -/
def containsConsoleError (effs : List Effect) : Bool :=
  effs.any fun e =>
    match e with
    | Effect.consoleError _ => true
    | _ => false

/-- A modal state as left by onOpen with a configured key, after a
successful start: all handles present, listening. -/
def listeningState : ModalState :=
  { humeApiKey := "test-key", mediaStream := some [0], socket := some (),
    isListening := true, mediaRecorder := some ⟨RecorderState.recording⟩,
    statusEl := some "Listening...",
    transcriptionEl := some "Waiting for input...",
    responseEl := some "Waiting for response...",
    startButton := some "Stop Listening" }

/-- A modal state as left by onOpen when no API key is configured. -/
def idleModal : ModalState :=
  { humeApiKey := "", mediaStream := none, socket := none,
    isListening := false, mediaRecorder := none,
    statusEl := some "Ready to start",
    transcriptionEl := some "Waiting for input...",
    responseEl := some "Waiting for response...",
    startButton := some "Start Listening" }

/-- A start environment in which the microphone is granted and the socket
opens. -/
def grantedEnv : StartEnv :=
  { micResult := Except.ok [0], socketOpenResult := Except.ok () }

/-- A start environment in which the microphone permission is denied. -/
def micDeniedEnv : StartEnv :=
  { micResult := Except.error "Permission denied", socketOpenResult := Except.ok () }

/-- A start environment in which the socket open wait rejects. -/
def socketFailEnv : StartEnv :=
  { micResult := Except.ok [0], socketOpenResult := Except.error "connect failed" }

/-- A playback environment in which decode and playback both succeed. -/
def idleAudioEnv : PlayAudioEnv :=
  { decode := DecodeResult.ok, play := PlayResult.started }

/-- A playback environment in which `audio.play()` rejects. -/
def playRejectedEnv : PlayAudioEnv :=
  { decode := DecodeResult.ok, play := PlayResult.rejected "NotAllowedError" }

/-- A playback environment in which the base64 decode throws. -/
def decodeFailEnv : PlayAudioEnv :=
  { decode := DecodeResult.failure "InvalidCharacterError", play := PlayResult.started }

/-- A service state with a configured key and no playing audio. -/
def svc0 : ServiceState :=
  { humeApiKey := "test-key", clientInitialized := false, currentAudio := none }

/-- A service state with a configured key while audio is playing. -/
def svcPlaying : ServiceState :=
  { svc0 with currentAudio := some "blob:old" }

/-- A TTS response with an empty generation list. -/
def respEmpty : TTSResponse := { generations := some [] }

/-- A TTS environment returning the empty-generation response. -/
def emptyGenEnv : TTSEnv :=
  { response := Except.ok respEmpty, playOutcome := PlayOutcome.ended }

/-- A TTS response with one generation carrying audio. -/
def goodResp : TTSResponse :=
  { generations := some [{ audio := some "UklGRg" }] }

/-- A TTS environment returning audio and playing it to completion. -/
def goodEnv : TTSEnv :=
  { response := Except.ok goodResp, playOutcome := PlayOutcome.ended }

/-- A TTS environment whose network call rejects. -/
def netFailEnv : TTSEnv :=
  { response := Except.error "network down", playOutcome := PlayOutcome.ended }

/-- C1: the session stop operation is idempotent.  From any prior state,
one call leaves the recorder handle, the media stream and the socket all
absent and the listening flag false (the embedded function is total, so no
error is raised), and a second call in a row is a fixed point that releases
nothing further. -/
theorem stopListening_idempotent (s : ModalState) :
    (stopListening s).1.mediaRecorder = none ∧
    (stopListening s).1.mediaStream = none ∧
    (stopListening s).1.socket = none ∧
    (stopListening s).1.isListening = false ∧
    stopListening (stopListening s).1 = ((stopListening s).1, []) := by
  cases h : s.statusEl <;> cases h2 : s.startButton <;>
    simp [stopListening, h, h2]

/-- C2: while the stored credential string is empty, both the command/ribbon
guard and the modal start control show a configure notice, open no session,
and the trace contains no microphone request, no socket connection and no
synthesis request. -/
theorem credential_gate_blocks_start (s : ModalState) (env : StartEnv)
    (hk : s.humeApiKey = "") :
    openVoiceBrainstorm s.humeApiKey =
      (false, [Effect.notice "Please configure your Hume API credentials in settings."]) ∧
    startListening s env =
      (s, [Effect.notice "Please configure your Hume API key in settings."]) ∧
    (∀ e ∈ (startListening s env).2,
       e ≠ Effect.requestMicrophone ∧ e ≠ Effect.connectSocket ∧
       ∀ t d, e ≠ Effect.synthesizeRequest t d) := by
  refine ⟨?_, ?_, ?_⟩ <;> simp [openVoiceBrainstorm, hasCredentials, startListening, hk]

/-- Witness for C2 at the concrete idle modal with an empty key. -/
theorem credential_gate_blocks_start_witness :
    openVoiceBrainstorm idleModal.humeApiKey =
      (false, [Effect.notice "Please configure your Hume API credentials in settings."]) ∧
    startListening idleModal grantedEnv =
      (idleModal, [Effect.notice "Please configure your Hume API key in settings."]) ∧
    (∀ e ∈ (startListening idleModal grantedEnv).2,
       e ≠ Effect.requestMicrophone ∧ e ≠ Effect.connectSocket ∧
       ∀ t d, e ≠ Effect.synthesizeRequest t d) :=
  credential_gate_blocks_start idleModal grantedEnv rfl

/-- C3: a blank (empty or whitespace-only) text makes streamTextToSpeech
reject with the empty-text error while the state is unchanged and the trace
is empty, so no network request is issued and the current audio is not
touched. -/
theorem blank_text_rejected_before_effects (s : ServiceState) (text : String)
    (d : Option String) (env : TTSEnv) (h : jsTrim text = "") :
    streamTextToSpeech s text d env = (Except.error "Text cannot be empty", s, []) := by
  simp [streamTextToSpeech, h]

/-- Witness for C3 at a single-space input. -/
theorem blank_text_rejected_before_effects_witness :
    streamTextToSpeech svc0 " " none goodEnv =
      (Except.error "Text cannot be empty", svc0, []) :=
  blank_text_rejected_before_effects svc0 " " none goodEnv (by decide)

/-- C4: a synthesis response with an absent or empty generation list, or a
first generation without a truthy audio payload, makes streamTextToSpeech
reject with one of the two no-audio error messages, log it to the console,
show an error notice, and rethrow that same error to the caller. -/
theorem missing_audio_rejected (s : ServiceState) (text : String) (d : Option String)
    (env : TTSEnv) (r : TTSResponse)
    (ht : jsTrim text ≠ "") (hk : s.humeApiKey ≠ "")
    (hr : env.response = Except.ok r)
    (hbad : r.generations = none ∨ r.generations = some [] ∨
            ∃ g gs, r.generations = some (g :: gs) ∧ (g.audio = none ∨ g.audio = some "")) :
    ∃ msg, (streamTextToSpeech s text d env).1 = Except.error msg ∧
      (msg = "No audio was generated" ∨ msg = "No audio data in response") ∧
      Effect.consoleError ("Hume TTS Error: " ++ msg) ∈ (streamTextToSpeech s text d env).2.2 ∧
      Effect.notice ("Error: " ++ msg) ∈ (streamTextToSpeech s text d env).2.2 := by
  have htx : text ≠ "" := fun h => ht (by simp [h, jsTrim])
  rcases hbad with h | h | ⟨g, gs, hg, ha⟩
  · refine ⟨"No audio was generated", ?_, Or.inl rfl, ?_, ?_⟩ <;>
      cases hc : s.currentAudio <;>
        simp [streamTextToSpeech, htx, ht, hk, hr, h, hc, ttsCatch, stopCurrentAudio]
  · refine ⟨"No audio was generated", ?_, Or.inl rfl, ?_, ?_⟩ <;>
      cases hc : s.currentAudio <;>
        simp [streamTextToSpeech, htx, ht, hk, hr, h, hc, ttsCatch, stopCurrentAudio]
  · rcases ha with ha | ha <;>
      refine ⟨"No audio data in response", ?_, Or.inr rfl, ?_, ?_⟩ <;>
        cases hc : s.currentAudio <;>
          simp [streamTextToSpeech, htx, ht, hk, hr, hg, ha, hc, ttsCatch, stopCurrentAudio]

/-- Witness for C4: a request for a nonblank text against a response with an
empty generation list. -/
theorem missing_audio_rejected_witness :
    ∃ msg, (streamTextToSpeech svc0 "Good morning" none emptyGenEnv).1 = Except.error msg ∧
      (msg = "No audio was generated" ∨ msg = "No audio data in response") ∧
      Effect.consoleError ("Hume TTS Error: " ++ msg) ∈
        (streamTextToSpeech svc0 "Good morning" none emptyGenEnv).2.2 ∧
      Effect.notice ("Error: " ++ msg) ∈
        (streamTextToSpeech svc0 "Good morning" none emptyGenEnv).2.2 :=
  missing_audio_rejected svc0 "Good morning" none emptyGenEnv respEmpty
    (by decide) (by decide) rfl (Or.inr (Or.inl rfl))

/-- C5: whenever a streamTextToSpeech call is made while an audio element is
playing, the first three effects of its trace are, in order: pausing the
in-flight audio, the progress notice, and only then the synthesis request —
so the in-flight playback is stopped before the request is issued, whatever
the request then returns. -/
theorem playback_serialized (s : ServiceState) (text u : String) (d : Option String)
    (env : TTSEnv) (hk : s.humeApiKey ≠ "") (ht : jsTrim text ≠ "")
    (hc : s.currentAudio = some u) :
    (streamTextToSpeech s text d env).2.2.take 3 =
      [Effect.pauseAudio u, Effect.notice "Synthesizing speech...",
       Effect.synthesizeRequest text d] := by
  have htx : text ≠ "" := fun h => ht (by simp [h, jsTrim])
  cases henv : env.response with
  | error m =>
      simp [streamTextToSpeech, htx, ht, hk, hc, henv, ttsCatch, stopCurrentAudio]
  | ok resp =>
    cases hg : resp.generations with
    | none => simp [streamTextToSpeech, htx, ht, hk, hc, henv, hg, ttsCatch, stopCurrentAudio]
    | some l =>
      cases l with
      | nil => simp [streamTextToSpeech, htx, ht, hk, hc, henv, hg, ttsCatch, stopCurrentAudio]
      | cons g gs =>
        cases ha : g.audio with
        | none =>
            simp [streamTextToSpeech, htx, ht, hk, hc, henv, hg, ha, ttsCatch, stopCurrentAudio]
        | some a =>
          by_cases ha2 : a = ""
          · simp [streamTextToSpeech, htx, ht, hk, hc, henv, hg, ha, ha2, ttsCatch,
                  stopCurrentAudio]
          · cases ho : env.playOutcome <;>
              simp [streamTextToSpeech, htx, ht, hk, hc, henv, hg, ha, ha2, ho, ttsCatch,
                    stopCurrentAudio, playAudio]

/-- Witness for C5: a second request while "blob:old" is playing. -/
theorem playback_serialized_witness :
    (streamTextToSpeech svcPlaying "Good morning" none goodEnv).2.2.take 3 =
      [Effect.pauseAudio "blob:old", Effect.notice "Synthesizing speech...",
       Effect.synthesizeRequest "Good morning" none] :=
  playback_serialized svcPlaying "Good morning" "blob:old" none goodEnv
    (by decide) (by decide) rfl

/-- Every effect released by stopListening is a recorder stop, a track stop
or a socket close; in particular it never opens anything. -/
theorem mem_stopListening_effects (s : ModalState) (e : Effect)
    (h : e ∈ (stopListening s).2) :
    e = Effect.recorderStop ∨ (∃ i, e = Effect.trackStop i) ∨ e = Effect.socketClose := by
  simp only [stopListening, List.mem_append] at h
  rcases h with (h | h) | h
  · rcases hm : s.mediaRecorder with _ | r
    · simp [hm] at h
    · rw [hm] at h
      simp at h
      exact Or.inl h.2
  · rcases hs : s.mediaStream with _ | tracks
    · simp [hs] at h
    · rw [hs] at h
      simp only [List.mem_map] at h
      obtain ⟨i, _, hi⟩ := h
      exact Or.inr (Or.inl ⟨i, hi.symm⟩)
  · rcases hk : s.socket with _ | sk
    · simp [hk] at h
    · rw [hk] at h
      simp at h
      exact Or.inr (Or.inr h)

/-- C10: after every settlement of the internal TTS playback (normal end,
element error, or play rejection) the current-audio handle is null and the
object URL has been revoked, so a subsequent stopCurrentAudio call changes
nothing and performs no effect. -/
theorem playback_settlement_resets (s : ServiceState) (url : String) (o : PlayOutcome) :
    (playAudio s url o).2.1.currentAudio = none ∧
    Effect.revokeObjectURL url ∈ (playAudio s url o).2.2 ∧
    stopCurrentAudio (playAudio s url o).2.1 = ((playAudio s url o).2.1, []) := by
  cases o <;> simp [playAudio, stopCurrentAudio]

/-- C8: a socket close event while still in the listening state performs a
full stop (recorder, stream and socket all released, the flag cleared), and
neither the close handler nor the error handler ever emits a socket
connection effect, so no reconnection is attempted. -/
theorem socket_close_stops_no_reconnect (s t : ModalState) (err : String)
    (h : s.isListening = true) :
    ((onSocketClose s).1.mediaRecorder = none ∧
     (onSocketClose s).1.mediaStream = none ∧
     (onSocketClose s).1.socket = none ∧
     (onSocketClose s).1.isListening = false) ∧
    Effect.connectSocket ∉ (onSocketClose t).2 ∧
    Effect.connectSocket ∉ (onSocketError t err).2 := by
  refine ⟨⟨?_, ?_, ?_, ?_⟩, ?_, ?_⟩
  · simp [onSocketClose, h, stopListening]
  · simp [onSocketClose, h, stopListening]
  · simp [onSocketClose, h, stopListening]
  · simp [onSocketClose, h, stopListening]
  · intro hmem
    cases hl : t.isListening
    · simp [onSocketClose, hl] at hmem
    · simp [onSocketClose, hl] at hmem
      rcases mem_stopListening_effects t _ hmem with h1 | ⟨i, h1⟩ | h1 <;> simp at h1
  · simp [onSocketError]

/-- Witness for C8 at a concrete fully listening state. -/
theorem socket_close_stops_no_reconnect_witness :
    (((onSocketClose listeningState).1.mediaRecorder = none ∧
      (onSocketClose listeningState).1.mediaStream = none ∧
      (onSocketClose listeningState).1.socket = none ∧
      (onSocketClose listeningState).1.isListening = false) ∧
     Effect.connectSocket ∉ (onSocketClose listeningState).2 ∧
     Effect.connectSocket ∉ (onSocketError listeningState "boom").2) :=
  socket_close_stops_no_reconnect listeningState listeningState "boom" rfl

/-- C9: an assistant_message carrying non-empty content sets the AI-reply
region text to exactly that content, leaves the transcript region and the
status label unchanged, and performs no effect. -/
theorem assistant_message_sets_reply (s : ModalState) (c r0 : String)
    (aenv : PlayAudioEnv) (hc : c ≠ "") (hr : s.responseEl = some r0) :
    (handleSocketMessage s (SubscribeEvent.assistantMessage (some c)) aenv).1.responseEl =
      some c ∧
    (handleSocketMessage s (SubscribeEvent.assistantMessage (some c)) aenv).1.transcriptionEl =
      s.transcriptionEl ∧
    (handleSocketMessage s (SubscribeEvent.assistantMessage (some c)) aenv).1.statusEl =
      s.statusEl ∧
    (handleSocketMessage s (SubscribeEvent.assistantMessage (some c)) aenv).2 = [] := by
  simp [handleSocketMessage, hc, hr]

/-- Witness for C9: content "Hello" against the opened, listening modal. -/
theorem assistant_message_sets_reply_witness :
    (handleSocketMessage listeningState
      (SubscribeEvent.assistantMessage (some "Hello")) idleAudioEnv).1.responseEl =
      some "Hello" ∧
    (handleSocketMessage listeningState
      (SubscribeEvent.assistantMessage (some "Hello")) idleAudioEnv).1.transcriptionEl =
      listeningState.transcriptionEl ∧
    (handleSocketMessage listeningState
      (SubscribeEvent.assistantMessage (some "Hello")) idleAudioEnv).1.statusEl =
      listeningState.statusEl ∧
    (handleSocketMessage listeningState
      (SubscribeEvent.assistantMessage (some "Hello")) idleAudioEnv).2 = [] :=
  assistant_message_sets_reply listeningState "Hello" "Waiting for response..."
    idleAudioEnv (by decide) rfl

/-- C7 counterexample: a socket error event during an active session leaves
the stream, recorder and socket handles all present and the listening flag
set — the session is not torn down by the error handler, contrary to the
claim. -/
theorem socket_error_keeps_session_counterexample :
    (onSocketError listeningState "connection refused").1.socket = some () ∧
    (onSocketError listeningState "connection refused").1.mediaStream = some [0] ∧
    (onSocketError listeningState "connection refused").1.mediaRecorder =
      some ⟨RecorderState.recording⟩ ∧
    (onSocketError listeningState "connection refused").1.isListening = true :=
  ⟨rfl, rfl, rfl, rfl⟩

/-- C7 amended: a socket error event is surfaced to the user (console log,
notice, status text set to the connection-error message) but the session is
left exactly as it was: no handle is released and the listening flag is
unchanged; teardown happens only through a subsequent close event. -/
theorem socket_error_surfaced_session_kept (s : ModalState) (err : String) :
    onSocketError s err =
      ({ s with statusEl := s.statusEl.map fun _ => "Connection error" },
       [Effect.consoleError ("EVI WebSocket error: " ++ err),
        Effect.notice "Connection error occurred"]) := rfl

/-- C6 counterexample: a play rejection while playing inbound session audio
is an error on the session path whose handling logs to the console but shows
no user-visible notice, contrary to the claim that every such error shows a
notice. -/
theorem error_without_notice_counterexample :
    containsConsoleError (playAudioResponse listeningState "UklGRg" playRejectedEnv).2 =
      true ∧
    containsNotice (playAudioResponse listeningState "UklGRg" playRejectedEnv).2 = false :=
  ⟨rfl, rfl⟩

/-- Whenever streamTextToSpeech rejects on a non-blank input, its trace
contains both a console error log and a user-visible notice (every throw
inside the try block goes through the catch block). -/
theorem streamTextToSpeech_error_logged (s : ServiceState) (text msg : String)
    (d : Option String) (env : TTSEnv) (ht : jsTrim text ≠ "")
    (he : (streamTextToSpeech s text d env).1 = Except.error msg) :
    containsConsoleError (streamTextToSpeech s text d env).2.2 = true ∧
    containsNotice (streamTextToSpeech s text d env).2.2 = true := by
  have htx : text ≠ "" := fun h => ht (by simp [h, jsTrim])
  by_cases hk : s.humeApiKey = ""
  · simp [streamTextToSpeech, htx, ht, hk, ttsCatch, containsConsoleError, containsNotice]
  · rcases henv : env.response with m | resp
    · cases hc : s.currentAudio <;>
        simp [streamTextToSpeech, htx, ht, hk, hc, henv, ttsCatch, stopCurrentAudio,
              containsConsoleError, containsNotice]
    · rcases hg : resp.generations with _ | (_ | ⟨g, gs⟩)
      · cases hc : s.currentAudio <;>
          simp [streamTextToSpeech, htx, ht, hk, hc, henv, hg, ttsCatch, stopCurrentAudio,
                containsConsoleError, containsNotice]
      · cases hc : s.currentAudio <;>
          simp [streamTextToSpeech, htx, ht, hk, hc, henv, hg, ttsCatch, stopCurrentAudio,
                containsConsoleError, containsNotice]
      · rcases ha : g.audio with _ | a
        · cases hc : s.currentAudio <;>
            simp [streamTextToSpeech, htx, ht, hk, hc, henv, hg, ha, ttsCatch,
                  stopCurrentAudio, containsConsoleError, containsNotice]
        · by_cases ha2 : a = ""
          · cases hc : s.currentAudio <;>
              simp [streamTextToSpeech, htx, ht, hk, hc, henv, hg, ha, ha2, ttsCatch,
                    stopCurrentAudio, containsConsoleError, containsNotice]
          · cases ho : env.playOutcome
            · exfalso
              cases hc : s.currentAudio <;>
                simp [streamTextToSpeech, htx, ht, hk, hc, henv, hg, ha, ha2, ho,
                      stopCurrentAudio, playAudio] at he
            · cases hc : s.currentAudio <;>
                simp [streamTextToSpeech, htx, ht, hk, hc, henv, hg, ha, ha2, ho, ttsCatch,
                      stopCurrentAudio, playAudio, containsConsoleError, containsNotice]
            · cases hc : s.currentAudio <;>
                simp [streamTextToSpeech, htx, ht, hk, hc, henv, hg, ha, ha2, ho, ttsCatch,
                      stopCurrentAudio, playAudio, containsConsoleError, containsNotice]

/-- C6 amended (as forced by the counterexample): every modelled error on
the text-to-speech and session paths is logged to the console and the
embedded handlers are total, so none escapes to crash the host; the errors
of the TTS request path, of session start (microphone denied or socket open
failure), of the socket error event and of the EVI error message also show
a user-visible notice, while inbound-audio playback errors (decode throw or
play rejection) are logged without a notice. -/
theorem errors_logged_and_surfaced (s : ServiceState) (ms : ModalState)
    (text msg m2 m3 m4 m5 data : String) (d : Option String) (env : TTSEnv)
    (senv1 senv2 : StartEnv) (tr : MediaStream)
    (ht : jsTrim text ≠ "")
    (he : (streamTextToSpeech s text d env).1 = Except.error msg)
    (hkm : ms.humeApiKey ≠ "")
    (h1 : senv1.micResult = Except.error m2)
    (h2 : senv2.micResult = Except.ok tr)
    (h2b : senv2.socketOpenResult = Except.error m3) :
    (containsConsoleError (streamTextToSpeech s text d env).2.2 = true ∧
     containsNotice (streamTextToSpeech s text d env).2.2 = true) ∧
    (containsConsoleError (startListening ms senv1).2 = true ∧
     containsNotice (startListening ms senv1).2 = true) ∧
    (containsConsoleError (startListening ms senv2).2 = true ∧
     containsNotice (startListening ms senv2).2 = true) ∧
    (containsConsoleError (onSocketError ms m4).2 = true ∧
     containsNotice (onSocketError ms m4).2 = true) ∧
    (containsConsoleError
       (handleSocketMessage ms (SubscribeEvent.errorEvent m5) idleAudioEnv).2 = true ∧
     containsNotice
       (handleSocketMessage ms (SubscribeEvent.errorEvent m5) idleAudioEnv).2 = true) ∧
    containsConsoleError (playAudioResponse ms data playRejectedEnv).2 = true ∧
    containsConsoleError (playAudioResponse ms data decodeFailEnv).2 = true := by
  refine ⟨streamTextToSpeech_error_logged s text msg d env ht he, ?_, ?_, ?_, ?_, ?_, ?_⟩
  · constructor <;>
      simp [startListening, hkm, h1, startCatch, containsConsoleError, containsNotice,
            List.any_append]
  · constructor <;>
      simp [startListening, hkm, h2, h2b, startCatch, containsConsoleError, containsNotice,
            List.any_append]
  · constructor <;> simp [onSocketError, containsConsoleError, containsNotice]
  · constructor <;> simp [handleSocketMessage, containsConsoleError, containsNotice]
  · simp [playAudioResponse, playRejectedEnv, mkObjectURL, containsConsoleError]
  · simp [playAudioResponse, decodeFailEnv, mkObjectURL, containsConsoleError]

/-- Witness for the amended C6 at concrete error inputs on every path. -/
theorem errors_logged_and_surfaced_witness :
    (containsConsoleError (streamTextToSpeech svc0 "Hi" none netFailEnv).2.2 = true ∧
     containsNotice (streamTextToSpeech svc0 "Hi" none netFailEnv).2.2 = true) ∧
    (containsConsoleError (startListening listeningState micDeniedEnv).2 = true ∧
     containsNotice (startListening listeningState micDeniedEnv).2 = true) ∧
    (containsConsoleError (startListening listeningState socketFailEnv).2 = true ∧
     containsNotice (startListening listeningState socketFailEnv).2 = true) ∧
    (containsConsoleError (onSocketError listeningState "socket hiccup").2 = true ∧
     containsNotice (onSocketError listeningState "socket hiccup").2 = true) ∧
    (containsConsoleError
       (handleSocketMessage listeningState
         (SubscribeEvent.errorEvent "server error") idleAudioEnv).2 = true ∧
     containsNotice
       (handleSocketMessage listeningState
         (SubscribeEvent.errorEvent "server error") idleAudioEnv).2 = true) ∧
    containsConsoleError (playAudioResponse listeningState "UklGRg" playRejectedEnv).2 =
      true ∧
    containsConsoleError (playAudioResponse listeningState "UklGRg" decodeFailEnv).2 =
      true :=
  errors_logged_and_surfaced svc0 listeningState "Hi" "network down" "Permission denied"
    "connect failed" "socket hiccup" "server error" "UklGRg" none netFailEnv
    micDeniedEnv socketFailEnv [0] (by decide) rfl (by decide) rfl rfl rfl
